import Mathlib

/-!
Shallow embedding of the K20s `ResourceOptimizerProfile` controller
(`internal/controller/resourceoptimizerprofile_controller.go`, appearing in the
source tree as `src/unnamed/part_000`).

Modelling conventions:
* Go `float64` arithmetic is modelled over `ℚ` (exact rational arithmetic).
  The division `x / 0` is `0` in `ℚ` while Go floats produce an infinity; every
  theorem that depends on a quotient carries the hypothesis that makes the
  rational model faithful, or concerns only control flow that does not depend
  on the quotient's value.
* Go `int32` replica arithmetic wraps; `wrap32` makes that explicit.
* Go `time.Duration` / timestamps are modelled as integers (nanoseconds).
* Kubernetes API calls are modelled as data: the workload lists are inputs
  (the label-selector matching is the external store's concern), and each
  workload carries the outcome its `Patch` call would have (`patchErr`).
  `List` calls and the final `Status().Update` are likewise given outcomes.
* Free-text log/detail strings built with `fmt.Sprintf("%.2f", ...)` are not
  reproduced character-for-character: `ActionDetail` keeps the fields the
  controller reads back (`Type`, `Timestamp`); `observedMetrics` records the
  rational value stored under the `"cpu_usage"` key; `recommendations` records
  the `(value, action)` pair the message is formatted from.  No claim inspects
  the formatted text itself.
* The process-wide Prometheus counters (`scaleUpActions.Inc()` etc.) are
  process metrics with no influence on control flow and are not modelled.
-/

namespace K20s

/-- Action name constants (controller file, lines 42-48). -/
def ScaleUpAction : String := "ScaleUp"

/-- See `ScaleUpAction`. -/
def ScaleDownAction : String := "ScaleDown"

/-- See `ScaleUpAction`. -/
def ResizeUpAction : String := "ResizeUp"

/-- See `ScaleUpAction`. -/
def ResizeDownAction : String := "ResizeDown"

/-- See `ScaleUpAction`. -/
def DoNothing : String := "DoNothing"

/-- Two's-complement wrap of Go `int32` arithmetic
(`2147483648 = 2^31`, `4294967296 = 2^32`). -/
def wrap32 (x : ℤ) : ℤ := (x + 2147483648) % 4294967296 - 2147483648

/-- Go's float-to-integer conversion `int64(q)`: truncation toward zero. -/
def truncQ (q : ℚ) : ℤ := if 0 ≤ q then ⌊q⌋ else ⌈q⌉

/-- `ThresholdSpec` (api/v1): `Min`/`Max` are `int32` percentages. -/
structure ThresholdSpec where
  min : ℤ
  max : ℤ
deriving DecidableEq

/-- The fields of `ResourceOptimizerProfileSpec` the controller reads.
The label selector is not modelled: matching is delegated to the external
workload store, whose answer is the workload lists handed to `reconcile`. -/
structure ProfileSpec where
  cpuThresholds : ThresholdSpec
  optimizationPolicy : String
  cooldownPeriod : Option ℤ
  minCPU : Option ℤ
  maxCPU : Option ℤ
deriving DecidableEq

/-- `ActionDetail` (api/v1): the last action's kind and timestamp.  The
free-text `Details` field is write-only in the controller and not modelled. -/
structure ActionDetail where
  type : String
  timestamp : ℤ
deriving DecidableEq

/-- `ResourceOptimizerProfileStatus` as the controller reads/writes it.
`observedMetrics` holds the value recorded under `"cpu_usage"` (Go stores
`fmt.Sprintf("%.2f", value)`); `recommendations` holds the `(value, action)`
pair the single recommendation string is formatted from (`nil` in Go is
`none`). -/
structure ProfileStatus where
  observedMetrics : Option ℚ
  lastAction : Option ActionDetail
  recommendations : Option (ℚ × String)
deriving DecidableEq

/-- One container of a workload's pod template: `cpuRequestMilli` is
`Resources.Requests[cpu]` in milli-units when that key is present. -/
structure Container where
  name : String
  cpuRequestMilli : Option ℤ
deriving DecidableEq

/-- The view of a Deployment/StatefulSet the controller uses: current
replicas (`int32` value), pod-template containers, and the outcome the
external store gives this workload's `Patch` call. -/
structure Workload where
  name : String
  replicas : ℤ
  containers : List Container
  patchErr : Option String
deriving DecidableEq

/-- Result of the Prometheus query as the controller's `switch result.Type()`
sees it (lines 124-146): an instant vector (possibly empty) carrying the
sample values, or any non-vector result. -/
inductive PromResult
  | vector (samples : List ℚ)
  | nonVector
deriving DecidableEq

/-- Lines 127-142: `value` starts at `0` and becomes the arithmetic mean of
the vector's samples only when the vector is non-empty. -/
def aggregateVector (samples : List ℚ) : ℚ :=
  if samples.length > 0 then samples.sum / (samples.length : ℚ) else 0

/-- Lines 148-165: threshold comparison.  `value < Min` picks the down
action, `value > Max` the up action (Resize policy gets the Resize variants,
every other policy the Scale variants), and everything else is `DoNothing`. -/
def classifyAction (value : ℚ) (tmin tmax : ℤ) (policy : String) : String :=
  if value < (tmin : ℚ) then
    if policy = "Resize" then ResizeDownAction else ScaleDownAction
  else if value > (tmax : ℚ) then
    if policy = "Resize" then ResizeUpAction else ScaleUpAction
  else
    DoNothing

/-- Outcome of the cooldown check. -/
inductive GateDecision
  | allow
  | blocked (requeueAfter : ℤ)
deriving DecidableEq

/-- Lines 181-188 (Scale) and 218-224 (Resize): the cooldown check, written
identically in both branches.  Blocks only when the candidate action and the
recorded last action are both real actions and `now - timestamp` is still
below the cooldown period; the requeue delay is the remaining cooldown.
(Go calls `time.Since` twice on a monotonic clock; the model reads `now`
once.) -/
def cooldownGate (action : String) (lastAction : Option ActionDetail)
    (cooldownPeriod now : ℤ) : GateDecision :=
  match lastAction with
  | none => .allow
  | some la =>
    if action ≠ DoNothing ∧ la.type ≠ DoNothing then
      if now - la.timestamp < cooldownPeriod then
        .blocked (cooldownPeriod - (now - la.timestamp))
      else
        .allow
    else
      .allow

/-- Lines 287-296 / 314-321: replica count after a horizontal action.
`*Spec.Replicas + 1` / `- 1` is Go `int32` arithmetic (hence `wrap32`),
followed by the `if newReplicas < 1 { newReplicas = 1 }` floor. -/
def newReplicasFor (action : String) (replicas : ℤ) : ℤ :=
  let n := if action = ScaleUpAction then wrap32 (replicas + 1) else wrap32 (replicas - 1)
  if n < 1 then 1 else n

/-- Lines 285-304 / 312-331: the per-list scaling loop.  Each workload is
patched in order; a patch failure makes the function return that error at
once, so the result pairs the successfully patched `(name, newReplicas)`
records with the first error (if any).  Workloads after a failure are never
reached. -/
def scaleLoop (action : String) : List Workload → List (String × ℤ) × Option String
  | [] => ([], none)
  | w :: rest =>
    match w.patchErr with
    | some e => ([], some e)
    | none =>
      let res := scaleLoop action rest
      ((w.name, newReplicasFor action w.replicas) :: res.1, res.2)

/-- Lines 270-334, `executeScaleAction`: short-circuits on `DoNothing`,
otherwise patches the matching Deployments and then (only if no Deployment
patch failed) the matching StatefulSets. -/
def executeScaleAction (action : String) (deployments statefulSets : List Workload) :
    List (String × ℤ) × Option String :=
  if action = DoNothing then ([], none)
  else
    match scaleLoop action deployments with
    | (dp, some e) => (dp, some e)
    | (dp, none) =>
      match scaleLoop action statefulSets with
      | (sp, serr) => (dp ++ sp, serr)

/-- Lines 355-356 / 399-400: the first container (in declaration order) whose
resource requests contain a CPU entry, with its index and current
milli-quantity. -/
def firstCPUMilli : List Container → Option (ℕ × ℤ)
  | [] => none
  | c :: rest =>
    match c.cpuRequestMilli with
    | some m => some (0, m)
    | none =>
      match firstCPUMilli rest with
      | some (i, m) => some (i + 1, m)
      | none => none

/-- Lines 357-376 (and the identical 401-415): the resize computation for one
container.  `targetUsagePercent` is the float midpoint of the thresholds;
the new request is `(observed / target) * currentCores`, times the fixed
`1.25` buffer, converted with `NewMilliQuantity(int64(value * 1000))`
(truncation toward zero), then clamped against `MinCPU` and `MaxCPU` in that
order when present.  Go performs this over `float64`; the model is exact
rational arithmetic, and `x / 0 = 0` in `ℚ` where Go floats give an
infinity — theorems about the computed value therefore assume a positive
target. -/
def resizeNewMilli (observedValue : ℚ) (tmin tmax : ℤ) (currentMilli : ℤ)
    (minCPU maxCPU : Option ℤ) : ℤ :=
  let targetUsagePercent : ℚ := (((tmin + tmax : ℤ) : ℚ)) / 2
  let newCPUValue : ℚ := (observedValue / targetUsagePercent) * ((currentMilli : ℚ) / 1000)
  let newCPUValue := newCPUValue * 1.25
  let newCPURequest : ℤ := truncQ (newCPUValue * 1000)
  let newCPURequest :=
    match minCPU with
    | some lo => if newCPURequest < lo then lo else newCPURequest
    | none => newCPURequest
  match maxCPU with
  | some hi => if newCPURequest > hi then hi else newCPURequest
  | none => newCPURequest

/-- Lines 351-388 / 396-427: the per-list resize loop.  For each workload,
only the first container owning a CPU request is resized; a workload without
one is skipped silently.  A patch failure makes the function return that
error at once; the result pairs the applied `(name, containerIndex,
newMilli)` records with the first error (if any). -/
def resizeLoop (observedValue : ℚ) (tmin tmax : ℤ) (minCPU maxCPU : Option ℤ) :
    List Workload → List (String × ℕ × ℤ) × Option String
  | [] => ([], none)
  | w :: rest =>
    match firstCPUMilli w.containers with
    | none => resizeLoop observedValue tmin tmax minCPU maxCPU rest
    | some (i, cur) =>
      match w.patchErr with
      | some e => ([], some e)
      | none =>
        let res := resizeLoop observedValue tmin tmax minCPU maxCPU rest
        ((w.name, i, resizeNewMilli observedValue tmin tmax cur minCPU maxCPU) :: res.1,
          res.2)

/-- Lines 336-430, `executeResizeAction`: short-circuits on `DoNothing`,
otherwise resizes the matching Deployments and then (only if no Deployment
patch failed) the matching StatefulSets. -/
def executeResizeAction (action : String) (observedValue : ℚ) (tmin tmax : ℤ)
    (minCPU maxCPU : Option ℤ) (deployments statefulSets : List Workload) :
    List (String × ℕ × ℤ) × Option String :=
  if action = DoNothing then ([], none)
  else
    match resizeLoop observedValue tmin tmax minCPU maxCPU deployments with
    | (dp, some e) => (dp, some e)
    | (dp, none) =>
      match resizeLoop observedValue tmin tmax minCPU maxCPU statefulSets with
      | (sp, serr) => (dp ++ sp, serr)

/-- `time.Minute * 5` in nanoseconds: the default cooldown (lines 173, 211)
and the fixed requeue interval (lines 145, 267). -/
def fiveMinutes : ℤ := 300000000000

/-- The outcome of one `Reconcile` call: the in-memory status at return (equal
to the input status when the cycle returned before mutating it), whether the
`Status().Update` call ran and succeeded, the scale/resize patches applied to
the workload store, the requeue delay of the returned `ctrl.Result` (none
when zero), and the returned error. -/
structure ReconcileResult where
  status : ProfileStatus
  statusUpdated : Bool
  scalePatches : List (String × ℤ)
  resizePatches : List (String × ℕ × ℤ)
  requeueAfter : Option ℤ
  err : Option String
deriving DecidableEq

/-- Lines 259-267, step 5: write `ObservedMetrics["cpu_usage"]` from the
observed value, call `Status().Update` (whose outcome `statusUpdateErr` is an
input), and requeue after the fixed five-minute interval. -/
def finishStatus (st : ProfileStatus) (value : ℚ) (statusUpdateErr : Option String)
    (sp : List (String × ℤ)) (rp : List (String × ℕ × ℤ)) : ReconcileResult :=
  let st2 := { st with observedMetrics := some value }
  match statusUpdateErr with
  | some e => ⟨st2, false, sp, rp, none, some e⟩
  | none => ⟨st2, true, sp, rp, some fiveMinutes, none⟩

/-- Lines 95-268, `Reconcile`, from the point where the Prometheus result is
in hand (profile fetch and query errors abort earlier and touch nothing).
A non-vector result requeues after five minutes without further work.  For a
vector, `value` is the (possibly empty) vector's aggregate, the threshold
comparison picks `action`, and the policy switch runs: Scale and Resize apply
the cooldown gate (blocked → immediate return, nothing mutated), execute
their action (an execution error aborts before any status write), and record
a new `LastAction` unless the action was `DoNothing`; Recommend writes or
clears `Recommendations`; any other policy only logs.  Every path that falls
through the switch ends in `finishStatus`. -/
def reconcile (spec : ProfileSpec) (status : ProfileStatus) (promResult : PromResult)
    (now : ℤ) (deployments statefulSets : List Workload)
    (statusUpdateErr : Option String) : ReconcileResult :=
  match promResult with
  | .nonVector => ⟨status, false, [], [], some fiveMinutes, none⟩
  | .vector samples =>
    let value := aggregateVector samples
    let action :=
      classifyAction value spec.cpuThresholds.min spec.cpuThresholds.max
        spec.optimizationPolicy
    if spec.optimizationPolicy = "Scale" then
      let cooldownPeriod := spec.cooldownPeriod.getD fiveMinutes
      match cooldownGate action status.lastAction cooldownPeriod now with
      | .blocked requeueAfter => ⟨status, false, [], [], some requeueAfter, none⟩
      | .allow =>
        let res := executeScaleAction action deployments statefulSets
        match res.2 with
        | some e => ⟨status, false, res.1, [], none, some e⟩
        | none =>
          let status1 :=
            if action ≠ DoNothing then
              { status with lastAction := some ⟨action, now⟩ }
            else status
          finishStatus status1 value statusUpdateErr res.1 []
    else if spec.optimizationPolicy = "Resize" then
      let cooldownPeriod := spec.cooldownPeriod.getD fiveMinutes
      match cooldownGate action status.lastAction cooldownPeriod now with
      | .blocked requeueAfter => ⟨status, false, [], [], some requeueAfter, none⟩
      | .allow =>
        let res :=
          executeResizeAction action value spec.cpuThresholds.min spec.cpuThresholds.max
            spec.minCPU spec.maxCPU deployments statefulSets
        match res.2 with
        | some e => ⟨status, false, [], res.1, none, some e⟩
        | none =>
          let status1 :=
            if action ≠ DoNothing then
              { status with lastAction := some ⟨action, now⟩ }
            else status
          finishStatus status1 value statusUpdateErr [] res.1
    else if spec.optimizationPolicy = "Recommend" then
      let status1 :=
        if action ≠ DoNothing then
          { status with recommendations := some (value, action) }
        else
          { status with recommendations := none }
      finishStatus status1 value statusUpdateErr [] []
    else
      finishStatus status value statusUpdateErr [] []

/-- Spec-side resize formula, written from the spec's words (§4.4 steps 1-5
and the §8 example): `newQuantity = (observedPercent / ((min + max) / 2)) *
currentQuantity * 1.25`, truncated to whole milli-units, and only afterwards
clamped to `clampMin`/`clampMax` when present.  Stated directly over
milli-units; compared against `resizeNewMilli` for claim C3. -/
def resizeSpecMilli (observedPercent : ℚ) (tmin tmax : ℤ) (currentMilli : ℤ)
    (clampMin clampMax : Option ℤ) : ℤ :=
  let target : ℚ := (((tmin + tmax : ℤ) : ℚ)) / 2
  let raw : ℤ := truncQ ((observedPercent / target) * (currentMilli : ℚ) * 1.25)
  let clamped :=
    match clampMin with
    | some lo => if raw < lo then lo else raw
    | none => raw
  match clampMax with
  | some hi => if clamped > hi then hi else clamped
  | none => clamped

/-- Claim C1: the threshold classifier returns the low action (ScaleDown for
Scale and Recommend, ResizeDown for Resize) when value < min, the high action
(ScaleUp for Scale and Recommend, ResizeUp for Resize) when value > max, and
DoNothing whenever min ≤ value ≤ max, with strict comparisons so values
exactly equal to min or max are in-range.  The high-branch clauses carry the
data-model invariant `min ≤ max` (the spec has the caller enforce `min < max`):
the code tests `value < min` first, so on an inverted pair that branch would
shadow `value > max`. -/
theorem classifier_threshold_behavior (value : ℚ) (tmin tmax : ℤ) :
    (∀ policy : String, policy = "Scale" ∨ policy = "Recommend" →
      (value < (tmin : ℚ) → classifyAction value tmin tmax policy = ScaleDownAction) ∧
      (tmin ≤ tmax → value > (tmax : ℚ) →
        classifyAction value tmin tmax policy = ScaleUpAction)) ∧
    ((value < (tmin : ℚ) → classifyAction value tmin tmax "Resize" = ResizeDownAction) ∧
      (tmin ≤ tmax → value > (tmax : ℚ) →
        classifyAction value tmin tmax "Resize" = ResizeUpAction)) ∧
    (∀ policy : String, (tmin : ℚ) ≤ value → value ≤ (tmax : ℚ) →
      classifyAction value tmin tmax policy = DoNothing) := by
  have key : ∀ hmm : tmin ≤ tmax, ∀ hhi : value > (tmax : ℚ), ¬(value < (tmin : ℚ)) := by
    intro hmm hhi
    have hc : (tmin : ℚ) ≤ (tmax : ℚ) := by exact_mod_cast hmm
    exact not_lt.mpr (le_of_lt (lt_of_le_of_lt hc hhi))
  refine ⟨?_, ⟨?_, ?_⟩, ?_⟩
  · rintro policy (rfl | rfl) <;>
      refine ⟨fun hlo => ?_, fun hmm hhi => ?_⟩ <;>
      unfold classifyAction
    · rw [if_pos hlo, if_neg (by decide)]
    · rw [if_neg (key hmm hhi), if_pos hhi, if_neg (by decide)]
    · rw [if_pos hlo, if_neg (by decide)]
    · rw [if_neg (key hmm hhi), if_pos hhi, if_neg (by decide)]
  · intro hlo
    unfold classifyAction
    rw [if_pos hlo, if_pos (by decide : ("Resize" : String) = "Resize")]
  · intro hmm hhi
    unfold classifyAction
    rw [if_neg (key hmm hhi), if_pos hhi, if_pos (by decide : ("Resize" : String) = "Resize")]
  · intro policy hlo hhi
    unfold classifyAction
    rw [if_neg (not_lt.mpr hlo), if_neg (not_lt.mpr hhi)]

/-- Helper: the floor `if newReplicas < 1 { newReplicas = 1 }` makes every
computed replica count at least 1, whatever the action and input. -/
theorem one_le_newReplicasFor (action : String) (replicas : ℤ) :
    1 ≤ newReplicasFor action replicas := by
  simp only [newReplicasFor]
  split <;> omega

/-- Helper: every patch recorded by the scaling loop carries a replica count
of at least 1. -/
theorem scaleLoop_patches_one_le (action : String) (items : List Workload) :
    ∀ p ∈ (scaleLoop action items).1, 1 ≤ p.2 := by
  induction items with
  | nil => intro p hp; simp [scaleLoop] at hp
  | cons w rest ih =>
    intro p hp
    rw [scaleLoop] at hp
    cases hw : w.patchErr with
    | some e => rw [hw] at hp; simp at hp
    | none =>
      rw [hw] at hp
      simp only [List.mem_cons] at hp
      rcases hp with rfl | hp
      · exact one_le_newReplicasFor action w.replicas
      · exact ih p hp

/-- Helper: the resize loop reports no error when every workload's patch
succeeds. -/
theorem resizeLoop_err_none (observedValue : ℚ) (tmin tmax : ℤ)
    (minCPU maxCPU : Option ℤ) (items : List Workload)
    (h : ∀ x ∈ items, x.patchErr = none) :
    (resizeLoop observedValue tmin tmax minCPU maxCPU items).2 = none := by
  induction items with
  | nil => rfl
  | cons w rest ih =>
    have hw : w.patchErr = none := h w (by simp)
    have ih' := ih fun x hx => h x (by simp [hx])
    rw [resizeLoop]
    cases hfc : firstCPUMilli w.containers with
    | none => exact ih'
    | some ic => rw [hw]; exact ih'

/-- Claim C2: the cooldown gate admits unconditionally when the candidate is
DoNothing, when no last action is recorded, or when the recorded kind is
DoNothing; otherwise it admits iff `now - timestamp ≥ cooldownPeriod` and
blocks with the remaining cooldown as requeue delay; and the decision never
depends on which non-no-op action was last taken versus which non-no-op
action is the candidate. -/
theorem cooldown_gate_behavior (action : String) (lastAction : Option ActionDetail)
    (cooldownPeriod now : ℤ) :
    (action = DoNothing → cooldownGate action lastAction cooldownPeriod now = .allow) ∧
    (lastAction = none → cooldownGate action lastAction cooldownPeriod now = .allow) ∧
    (∀ la, lastAction = some la → la.type = DoNothing →
      cooldownGate action lastAction cooldownPeriod now = .allow) ∧
    (∀ la, lastAction = some la → action ≠ DoNothing → la.type ≠ DoNothing →
      (cooldownPeriod ≤ now - la.timestamp →
        cooldownGate action lastAction cooldownPeriod now = .allow) ∧
      (now - la.timestamp < cooldownPeriod →
        cooldownGate action lastAction cooldownPeriod now =
          .blocked (cooldownPeriod - (now - la.timestamp)))) ∧
    (∀ a2 la1 la2, action ≠ DoNothing → a2 ≠ DoNothing →
      la1.type ≠ DoNothing → la2.type ≠ DoNothing → la1.timestamp = la2.timestamp →
      cooldownGate action (some la1) cooldownPeriod now =
        cooldownGate a2 (some la2) cooldownPeriod now) := by
  refine ⟨?_, ?_, ?_, ?_, ?_⟩
  · rintro rfl
    cases lastAction with
    | none => rfl
    | some la => simp [cooldownGate]
  · rintro rfl; rfl
  · rintro la rfl hT
    simp [cooldownGate, hT]
  · rintro la rfl hA hT
    refine ⟨fun hle => ?_, fun hlt => ?_⟩
    · simp [cooldownGate, hA, hT, not_lt.mpr hle]
    · simp [cooldownGate, hA, hT, hlt]
  · intro a2 la1 la2 hA h2 hT1 hT2 hts
    simp [cooldownGate, hA, h2, hT1, hT2, hts]

/-- Witness for C2: a ScaleUp recorded at time 0 blocks a candidate ScaleDown
at time 100 under a 300-unit cooldown, requeueing after the remaining 200. -/
theorem cooldown_gate_behavior_witness :
    cooldownGate ScaleDownAction (some ⟨"ScaleUp", 0⟩) 300 100 = .blocked 200 := by
  have h :=
    ((cooldown_gate_behavior ScaleDownAction (some ⟨"ScaleUp", 0⟩) 300 100).2.2.2.1
      ⟨"ScaleUp", 0⟩ rfl (by decide) (by decide)).2 (by decide)
  exact h

/-- Claim C3: the resize calculator computes
`(observedPercent / ((min + max) / 2)) * currentQuantity * 1.25`, truncated
to whole milli-units, and only afterwards clamps; in particular 90 percent
observed against thresholds 30/70 on a 500m request yields 1125m, and 1000m
once a 1000m clamp maximum is set.  The positivity hypothesis marks the
domain on which the exact-rational model of the Go float division is
faithful. -/
theorem resize_calculator_formula :
    (∀ (observedValue : ℚ) (tmin tmax currentMilli : ℤ) (clampMin clampMax : Option ℤ),
      0 < tmin + tmax →
      resizeNewMilli observedValue tmin tmax currentMilli clampMin clampMax =
        resizeSpecMilli observedValue tmin tmax currentMilli clampMin clampMax) ∧
    resizeNewMilli 90 30 70 500 none none = 1125 ∧
    resizeNewMilli 90 30 70 500 none (some 1000) = 1000 := by
  refine ⟨?_, ?_, ?_⟩
  · intro observedValue tmin tmax currentMilli clampMin clampMax h
    have harg :
        observedValue / (((tmin + tmax : ℤ) : ℚ) / 2) * ((currentMilli : ℚ) / 1000) *
            1.25 * 1000 =
          observedValue / (((tmin + tmax : ℤ) : ℚ) / 2) * (currentMilli : ℚ) * 1.25 := by
      ring
    simp only [resizeNewMilli, resizeSpecMilli, harg]
  · norm_num [resizeNewMilli, truncQ]
  · norm_num [resizeNewMilli, truncQ]

/-- Witness for C3: the code computation agrees with the spec formula at the
spec's own worked example. -/
theorem resize_calculator_formula_witness :
    resizeNewMilli 90 30 70 500 none none = resizeSpecMilli 90 30 70 500 none none :=
  resize_calculator_formula.1 90 30 70 500 none none (by decide)

/-- Witness for C1: observed value 90 above the max threshold 70 classifies
as ScaleUp under the Scale policy. -/
theorem classifier_threshold_behavior_witness :
    classifyAction 90 30 70 "Scale" = ScaleUpAction :=
  ((classifier_threshold_behavior 90 30 70).1 "Scale" (Or.inl rfl)).2
    (by decide) (by decide)

/-- Counterexample for C4: an empty sample vector is not turned into a
distinct "no data" signal.  It aggregates to 0 and the cycle proceeds to act
on that 0: with thresholds 30/70 and no prior action, a Scale cycle scales a
5-replica deployment down to 4 — silence is treated as 0 percent
utilization rather than skipped. -/
theorem empty_samples_not_skipped_cex :
    aggregateVector [] = 0 ∧
    (reconcile ⟨⟨30, 70⟩, "Scale", none, none, none⟩ ⟨none, none, none⟩
        (.vector []) 0 [⟨"d", 5, [], none⟩] [] none).scalePatches = [("d", 4)] := by
  exact ⟨rfl, rfl⟩

/-- Claim C4 as amended: the aggregator maps an empty sample vector to the
value 0 and the cycle proceeds to classify it (only a non-vector Prometheus
result makes the cycle skip, requeueing after five minutes with nothing
touched); a non-empty vector maps to the arithmetic mean of the samples,
e.g. `[10, 20, 30] → 20`. -/
theorem aggregator_amended :
    aggregateVector [] = 0 ∧
    (∀ samples : List ℚ, samples ≠ [] →
      aggregateVector samples = samples.sum / (samples.length : ℚ)) ∧
    aggregateVector [10, 20, 30] = 20 ∧
    (∀ (spec : ProfileSpec) (status : ProfileStatus) (now : ℤ)
        (deployments statefulSets : List Workload) (statusUpdateErr : Option String),
      reconcile spec status .nonVector now deployments statefulSets statusUpdateErr =
        ⟨status, false, [], [], some fiveMinutes, none⟩) := by
  refine ⟨rfl, ?_, ?_, ?_⟩
  · intro samples h
    unfold aggregateVector
    rw [if_pos (by simpa using List.length_pos.mpr h)]
  · show (if _ > 0 then _ else _) = _
    rw [if_pos (by decide)]
    norm_num [List.sum_cons, List.sum_nil]
  · intro spec status now deployments statefulSets statusUpdateErr
    rfl

/-- Witness for C4 (amended): the mean clause applied at `[10, 20, 30]`. -/
theorem aggregator_amended_witness :
    aggregateVector [10, 20, 30] =
      ([10, 20, 30] : List ℚ).sum / ((([10, 20, 30] : List ℚ).length : ℕ) : ℚ) :=
  aggregator_amended.2.1 [10, 20, 30] (by decide)

/-- Counterexample for C5: one workload's apply failure stops iteration over
the remaining workloads.  With two deployments where only the first one's
patch fails, the dispatcher returns the error at once and the second
workload receives no outcome at all. -/
theorem dispatcher_stops_on_failure_cex :
    executeScaleAction ScaleUpAction
        [⟨"a", 3, [], some "boom"⟩, ⟨"b", 3, [], none⟩] [] = ([], some "boom") := by
  rfl

/-- Claim C5 as amended: actuation aborts at the first patch failure.  The
workloads before the failing one (in iteration order) receive their patches,
the failing workload and every later one receive none, and the first error is
returned as the cycle's failure.  Stated for both the scaling loop and the
resize loop. -/
theorem dispatcher_first_failure_amended :
    (∀ (action : String) (pre post : List Workload) (w : Workload) (e : String),
      (∀ x ∈ pre, x.patchErr = none) → w.patchErr = some e →
      scaleLoop action (pre ++ w :: post) =
        (pre.map fun x => (x.name, newReplicasFor action x.replicas), some e)) ∧
    (∀ (observedValue : ℚ) (tmin tmax : ℤ) (minCPU maxCPU : Option ℤ)
        (pre post : List Workload) (w : Workload) (e : String) (i : ℕ) (cur : ℤ),
      (∀ x ∈ pre, x.patchErr = none) → w.patchErr = some e →
      firstCPUMilli w.containers = some (i, cur) →
      resizeLoop observedValue tmin tmax minCPU maxCPU (pre ++ w :: post) =
        (pre.filterMap fun x =>
          (firstCPUMilli x.containers).map fun ic =>
            (x.name, ic.1, resizeNewMilli observedValue tmin tmax ic.2 minCPU maxCPU),
          some e)) := by
  constructor
  · intro action pre post w e hpre hw
    induction pre with
    | nil => simp [scaleLoop, hw]
    | cons x xs ih =>
      have hx : x.patchErr = none := hpre x (by simp)
      have ih' := ih fun y hy => hpre y (by simp [hy])
      rw [List.cons_append, scaleLoop, hx, ih', List.map_cons]
  · intro observedValue tmin tmax minCPU maxCPU pre post w e i cur hpre hw hfc
    induction pre with
    | nil =>
      rw [List.nil_append, resizeLoop, hfc, hw, List.filterMap_nil]
    | cons x xs ih =>
      have hx : x.patchErr = none := hpre x (by simp)
      have ih' := ih fun y hy => hpre y (by simp [hy])
      rw [List.cons_append, resizeLoop, List.filterMap_cons]
      cases hc : firstCPUMilli x.containers with
      | none => simpa using ih'
      | some ic => rw [hx, ih']; rfl

/-- Witness for C5 (amended): with no preceding workloads, a failing patch
yields no outcomes and the error. -/
theorem dispatcher_first_failure_amended_witness :
    scaleLoop ScaleUpAction ([] ++ ⟨"a", 1, [], some "boom"⟩ :: []) =
      ([], some "boom") :=
  dispatcher_first_failure_amended.1 ScaleUpAction [] [] ⟨"a", 1, [], some "boom"⟩
    "boom" (by simp) rfl

/-- Claim C6 (code bug): the resize calculator has no 1-milli floor.  At
observed value 0 (a real reading, or what silence aggregates to) with
thresholds 30/70 and a 500m request and no clamps configured, it computes
0m — which the controller then patches — instead of raising the result to
1m as the repository's own documentation ("1m minimum flooring") promises. -/
theorem resize_floor_missing :
    resizeNewMilli 0 30 70 500 none none = 0 ∧
    ¬(1 ≤ resizeNewMilli 0 30 70 500 none none) := by
  have h : resizeNewMilli 0 30 70 500 none none = 0 := by
    norm_num [resizeNewMilli, truncQ]
  exact ⟨h, by omega⟩

/-- Counterexample for C7: when the cooldown gate blocks, the cycle returns
immediately — ObservedMetrics is NOT refreshed (it stays `none` here instead
of becoming the observed 90) and no status update is issued. -/
theorem blocked_no_status_refresh_cex :
    (reconcile ⟨⟨30, 70⟩, "Scale", none, none, none⟩
        ⟨none, some ⟨"ScaleUp", 0⟩, none⟩ (.vector []) 1000 [] [] none).status.observedMetrics
        = none ∧
    (reconcile ⟨⟨30, 70⟩, "Scale", none, none, none⟩
        ⟨none, some ⟨"ScaleUp", 0⟩, none⟩ (.vector []) 1000 [] [] none).statusUpdated
        = false := by
  exact ⟨rfl, rfl⟩

/-- Claim C7 as amended: when the cooldown gate blocks a candidate action
under the Scale or Resize policy, the cycle performs no actuation and no
status mutation at all — LastAction is unchanged and ObservedMetrics is NOT
refreshed, because the cycle returns before the status-update step — and it
requeues after the gate's remaining-cooldown delay without error. -/
theorem blocked_cycle_frame (spec : ProfileSpec) (status : ProfileStatus)
    (samples : List ℚ) (now : ℤ) (deployments statefulSets : List Workload)
    (statusUpdateErr : Option String) (w : ℤ)
    (hpol : spec.optimizationPolicy = "Scale" ∨ spec.optimizationPolicy = "Resize")
    (hgate : cooldownGate
        (classifyAction (aggregateVector samples) spec.cpuThresholds.min
          spec.cpuThresholds.max spec.optimizationPolicy)
        status.lastAction (spec.cooldownPeriod.getD fiveMinutes) now = .blocked w) :
    reconcile spec status (.vector samples) now deployments statefulSets statusUpdateErr =
      ⟨status, false, [], [], some w, none⟩ := by
  rcases hpol with h | h
  · simp only [reconcile]
    rw [h] at hgate ⊢
    rw [if_pos rfl, hgate]
  · simp only [reconcile]
    rw [h] at hgate ⊢
    rw [if_neg (by decide), if_pos rfl, hgate]

/-- Witness for C7 (amended): a blocked Scale cycle at time 100 under the
default five-minute cooldown leaves everything untouched. -/
theorem blocked_cycle_frame_witness :
    reconcile ⟨⟨30, 70⟩, "Scale", none, none, none⟩
        ⟨none, some ⟨"ScaleUp", 0⟩, none⟩ (.vector []) 100 [] [] none =
      ⟨⟨none, some ⟨"ScaleUp", 0⟩, none⟩, false, [], [], some 299999999900, none⟩ :=
  blocked_cycle_frame ⟨⟨30, 70⟩, "Scale", none, none, none⟩
    ⟨none, some ⟨"ScaleUp", 0⟩, none⟩ [] 100 [] [] none 299999999900
    (Or.inl rfl) (by decide)

/-- Counterexample for C8: degenerate thresholds (min = -30, max = 30, so the
target midpoint is 0) do not make the resize path signal an "invalid
thresholds" error — the computation proceeds and the cycle completes with no
error at all.  (In Go the float division by the zero target yields an
infinity whose integer conversion is implementation-dependent; the error
component asserted here depends only on control flow, which has no
degenerate-threshold branch.) -/
theorem degenerate_target_no_error_cex :
    (executeResizeAction ResizeUpAction 90 (-30) 30 none none
        [⟨"d", 1, [⟨"main", some 500⟩], none⟩] []).2 = none := by
  rfl

/-- Claim C8 as amended: the resize calculator performs no threshold
validation: for every threshold pair, including zero-or-negative targets, the
only errors the resize path can report are workload-store patch failures —
when every patch succeeds it reports none, whatever the thresholds. -/
theorem resize_no_threshold_check (action : String) (observedValue : ℚ)
    (tmin tmax : ℤ) (minCPU maxCPU : Option ℤ)
    (deployments statefulSets : List Workload)
    (hd : ∀ x ∈ deployments, x.patchErr = none)
    (hs : ∀ x ∈ statefulSets, x.patchErr = none) :
    (executeResizeAction action observedValue tmin tmax minCPU maxCPU
        deployments statefulSets).2 = none := by
  unfold executeResizeAction
  split
  · rfl
  · split
    · rename_i dp e heq
      exfalso
      have h1 := resizeLoop_err_none observedValue tmin tmax minCPU maxCPU deployments hd
      rw [heq] at h1
      exact Option.some_ne_none e h1
    · rename_i dp heq
      split
      rename_i sp serr heq2
      have h2 := resizeLoop_err_none observedValue tmin tmax minCPU maxCPU statefulSets hs
      rw [heq2] at h2
      exact h2

/-- Witness for C8 (amended): a zero target (thresholds 0/0) with a
successfully patching deployment reports no error. -/
theorem resize_no_threshold_check_witness :
    (executeResizeAction ResizeUpAction 90 0 0 none none
        [⟨"d", 1, [⟨"main", some 500⟩], none⟩] []).2 = none :=
  resize_no_threshold_check ResizeUpAction 90 0 0 none none
    [⟨"d", 1, [⟨"main", some 500⟩], none⟩] [] (by decide) (by decide)

/-- Counterexample for C9: ScaleUp does not always yield current + 1.  At the
int32 boundary, 2147483647 replicas wrap to -2147483648 and the floor raises
the result to 1, not 2147483648. -/
theorem scaleup_wrap_cex :
    newReplicasFor ScaleUpAction 2147483647 = 1 ∧
    (1 : ℤ) ≠ 2147483647 + 1 := by
  exact ⟨rfl, by decide⟩

/-- Claim C9 as amended: every patch any horizontal action emits carries a
replica count of at least 1 (the floor is applied after the int32-wrapping
arithmetic); away from the int32 boundary the arithmetic is the claimed one:
ScaleUp yields current + 1 for 0 ≤ current with current + 1 < 2^31, ScaleDown
yields current - 1 for 2 ≤ current < 2^31 and 1 for current ∈ {0, 1}, so in
particular ScaleDown from 1 replica leaves 1. -/
theorem scale_replicas_amended :
    (∀ (action : String) (deployments statefulSets : List Workload),
      ∀ p ∈ (executeScaleAction action deployments statefulSets).1, 1 ≤ p.2) ∧
    (∀ replicas : ℤ, 0 ≤ replicas → replicas + 1 < 2147483648 →
      newReplicasFor ScaleUpAction replicas = replicas + 1) ∧
    (∀ replicas : ℤ, 2 ≤ replicas → replicas < 2147483648 →
      newReplicasFor ScaleDownAction replicas = replicas - 1) ∧
    (∀ replicas : ℤ, 0 ≤ replicas → replicas ≤ 1 →
      newReplicasFor ScaleDownAction replicas = 1) ∧
    newReplicasFor ScaleDownAction 1 = 1 := by
  refine ⟨?_, ?_, ?_, ?_, rfl⟩
  · intro action deployments statefulSets p hp
    unfold executeScaleAction at hp
    split at hp
    · simp at hp
    · split at hp
      · rename_i dp e heq
        have h1 := scaleLoop_patches_one_le action deployments p
        rw [heq] at h1
        exact h1 hp
      · rename_i dp heq
        split at hp
        rename_i sp serr heq2
        have h1 := scaleLoop_patches_one_le action deployments p
        have h2 := scaleLoop_patches_one_le action statefulSets p
        rw [heq] at h1
        rw [heq2] at h2
        rcases List.mem_append.mp hp with hm | hm
        · exact h1 hm
        · exact h2 hm
  · intro replicas h0 hlt
    simp only [newReplicasFor, wrap32, if_true]
    split <;> omega
  · intro replicas h0 hlt
    simp only [newReplicasFor, wrap32,
      if_neg (by decide : ¬ScaleDownAction = ScaleUpAction)]
    split <;> omega
  · intro replicas h0 hle
    simp only [newReplicasFor, wrap32,
      if_neg (by decide : ¬ScaleDownAction = ScaleUpAction)]
    split <;> omega

/-- Witness for C9 (amended): ScaleUp from 3 replicas yields 4. -/
theorem scale_replicas_amended_witness :
    newReplicasFor ScaleUpAction 3 = 3 + 1 :=
  scale_replicas_amended.2.1 3 (by decide) (by decide)

/-- Claim C10: for any optimization policy other than Scale, Resize and
Recommend, a cycle that obtained a sample vector performs no actuation,
leaves LastAction and Recommendations untouched, but still overwrites
ObservedMetrics with the observed value and requeues after the fixed
five-minute interval. -/
theorem unknown_policy_cycle (spec : ProfileSpec) (status : ProfileStatus)
    (samples : List ℚ) (now : ℤ) (deployments statefulSets : List Workload)
    (h1 : spec.optimizationPolicy ≠ "Scale") (h2 : spec.optimizationPolicy ≠ "Resize")
    (h3 : spec.optimizationPolicy ≠ "Recommend") :
    reconcile spec status (.vector samples) now deployments statefulSets none =
      ⟨{ status with observedMetrics := some (aggregateVector samples) },
        true, [], [], some fiveMinutes, none⟩ := by
  simp only [reconcile]
  rw [if_neg h1, if_neg h2, if_neg h3]
  rfl

/-- Witness for C10: an unrecognized policy string leaves last action and
recommendations alone while refreshing the observed metric. -/
theorem unknown_policy_cycle_witness :
    reconcile ⟨⟨30, 70⟩, "Observe", none, none, none⟩
        ⟨none, some ⟨"ScaleUp", 7⟩, some (50, "ScaleUp")⟩ (.vector []) 0 [] [] none =
      ⟨⟨some (aggregateVector []), some ⟨"ScaleUp", 7⟩, some (50, "ScaleUp")⟩,
        true, [], [], some fiveMinutes, none⟩ :=
  unknown_policy_cycle ⟨⟨30, 70⟩, "Observe", none, none, none⟩
    ⟨none, some ⟨"ScaleUp", 7⟩, some (50, "ScaleUp")⟩ [] 0 [] []
    (by decide) (by decide) (by decide)

end K20s
